import Mathlib

/-!
Verification development for the Podcast-Video-Bot endpoint pipeline.

The repository is a set of stateless JSON-over-HTTP POST handlers
(`src/api/*.py`).  Each handler's `do_POST` body is embedded below as a pure
Lean function.  External services (Google Translate, gTTS, the HuggingFace
image API, video encoding, PyPDF2) are modelled as oracle parameters of type
`... → Except String β`: the handlers only inspect success/failure of those
calls, never their internals.  The JSON transport layer (missing-field and
type checks on the decoded body, CORS, header handling) is outside the
embedding; the functions below start from the already-extracted, well-typed
request fields, exactly as the Python code reads them out of `data`.

Python specifics are modelled as follows:
* `str.strip()` / `str.split()` / slicing `xs[a:b]` with non-negative bounds
  are `pyStrip` / `wordCount` (only the length of `split()` is ever used) /
  `pySlice`;
* `int(target_words * 0.8)` and `int(target_words * 1.2)` are
  `target * 4 / 5` and `target * 6 / 5` in `Nat` (for integer `target` far
  below 2^50 the float products round to values with the same floor, so the
  `Nat` expressions agree with CPython);
* the `re` substitutions in `clean_transcript` are embedded as dedicated
  scanners, one per pattern, run through the leftmost-match/skip engine
  `reSubAux` that mirrors `re.sub` for these patterns (none of which can
  match the empty string).
-/

/-! ## Character classes (ASCII fragment of Python `\s`, `\d`, `\w`) -/

def isSpaceChar (c : Char) : Bool :=
  c == ' ' || c == '\t' || c == '\n' || c == '\r' || c == '\x0b' || c == '\x0c'

def isTermChar (c : Char) : Bool :=
  c == '.' || c == '!' || c == '?'

def isSMHChar (c : Char) : Bool :=
  c == 's' || c == 'm' || c == 'h'

def isWordChar (c : Char) : Bool :=
  c.isAlphanum || c == '_'

/-! ## Python string primitives -/

/-- `str.strip()`: drop trailing then leading whitespace. -/
def stripL (l : List Char) : List Char :=
  List.dropWhile isSpaceChar ((List.dropWhile isSpaceChar l.reverse).reverse)

def pyStrip (s : String) : String := String.mk (stripL s.toList)

/-- `not s or not s.strip()` — blank test used by the batch endpoints. -/
def isBlank (s : String) : Bool := (stripL s.toList).isEmpty

/-- Counts the words of `len(s.split())`: number of maximal non-space runs. -/
def countWordsAux : Bool → List Char → Nat
  | _, [] => 0
  | inWord, c :: cs =>
    if isSpaceChar c then countWordsAux false cs
    else (if inWord then 0 else 1) + countWordsAux true cs

def wordCount (s : String) : Nat := countWordsAux false s.toList

/-- Python list slice `l[a:b]` for non-negative `a`, `b`. -/
def pySlice {α : Type} (l : List α) (a b : Nat) : List α := (l.take b).drop a

/-- `list(range(a, b))`. -/
def pyRange (a b : Nat) : List Nat := List.range' a (b - a)

/-! ## Tiny matching combinators for the fixed regex patterns

A matcher takes the remaining input and returns the input after the matched
region (`none` when the pattern does not match at this position).  All
patterns in `clean_transcript` are built from character classes whose
adjacent pieces are disjoint, so greedy maximal munch coincides with the
backtracking semantics of Python `re` for them. -/

def matchOne (p : Char → Bool) : List Char → Option (List Char)
  | [] => none
  | c :: cs => if p c then some cs else none

def matchStar (p : Char → Bool) (s : List Char) : List Char :=
  List.dropWhile p s

def matchPlus (p : Char → Bool) (s : List Char) : Option (List Char) := do
  let s ← matchOne p s
  pure (List.dropWhile p s)

/-- Case-insensitive literal match (Python `re.IGNORECASE` on ASCII). -/
def matchLitCI : List Char → List Char → Option (List Char)
  | [], s => some s
  | _ :: _, [] => none
  | l :: ls, c :: cs => if c.toLower == l.toLower then matchLitCI ls cs else none

/-- One pass of `re.sub(pattern, repl, text)` for a pattern that never
matches the empty string.  `m` receives the previous character of the
original text (for `\b`) and the remaining input; on a match the scan
resumes after the matched region, as `re.sub` does.  The fuel is the input
length, which suffices because every accepted match consumes at least one
character. -/
def reSubAux (m : Option Char → List Char → Option (List Char))
    (repl : List Char) : Nat → Option Char → List Char → List Char
  | 0, _, s => s
  | _ + 1, _, [] => []
  | fuel + 1, prev, c :: cs =>
    match m prev (c :: cs) with
    | some rest =>
      if rest.length ≤ cs.length then
        repl ++ reSubAux m repl fuel
          (((c :: cs).take (cs.length + 1 - rest.length)).getLast?) rest
      else c :: reSubAux m repl fuel (some c) cs
    | none => c :: reSubAux m repl fuel (some c) cs

def reSub (m : List Char → Option (List Char)) (repl : List Char)
    (s : List Char) : List Char :=
  reSubAux (fun _ t => m t) repl s.length none s

def reSubB (m : Option Char → List Char → Option (List Char))
    (repl : List Char) (s : List Char) : List Char :=
  reSubAux m repl s.length none s

/-! ## src/api/split_story.py -/

namespace SplitStory

/-- Pattern `\d+\s*\(\d+[smh]+\s*\d*[smh]*\):` (timestamp/speaker markers
such as `0 (1m 43s):`). -/
def mTimestamp (s : List Char) : Option (List Char) := do
  let s ← matchPlus Char.isDigit s
  let s := matchStar isSpaceChar s
  let s ← matchOne (· == '(') s
  let s ← matchPlus Char.isDigit s
  let s ← matchPlus isSMHChar s
  let s := matchStar isSpaceChar s
  let s := matchStar Char.isDigit s
  let s := matchStar isSMHChar s
  let s ← matchOne (· == ')') s
  matchOne (· == ':') s

/-- `\d{1,2}` followed by a required `:` in the clock patterns: greedily take
one or two digits (backtracking cannot rescue a failed colon, since the
alternative leaves another digit where the colon must be). -/
def matchD12 (s : List Char) : Option (List Char) := do
  let s ← matchOne Char.isDigit s
  pure ((matchOne Char.isDigit s).getD s)

/-- Pattern `\[?\d{1,2}:\d{2}:\d{2}\]?`. -/
def mClock3 (s : List Char) : Option (List Char) := do
  let s := (matchOne (· == '[') s).getD s
  let s ← matchD12 s
  let s ← matchOne (· == ':') s
  let s ← matchOne Char.isDigit s
  let s ← matchOne Char.isDigit s
  let s ← matchOne (· == ':') s
  let s ← matchOne Char.isDigit s
  let s ← matchOne Char.isDigit s
  pure ((matchOne (· == ']') s).getD s)

/-- Pattern `\[?\d{1,2}:\d{2}\]?`. -/
def mClock2 (s : List Char) : Option (List Char) := do
  let s := (matchOne (· == '[') s).getD s
  let s ← matchD12 s
  let s ← matchOne (· == ':') s
  let s ← matchOne Char.isDigit s
  let s ← matchOne Char.isDigit s
  pure ((matchOne (· == ']') s).getD s)

/-- Pattern `\b(Host|Guest|Narrator|Speaker \d+):\s*`, `re.IGNORECASE`.
All alternatives begin with a letter, so `\b` holds exactly when the
previous character is not a word character. -/
def mSpeaker (prev : Option Char) (s : List Char) : Option (List Char) :=
  let boundary := match prev with
    | none => true
    | some c => !(isWordChar c)
  if !boundary then none
  else
    let afterName : Option (List Char) :=
      (matchLitCI "host".toList s).orElse (fun _ =>
      (matchLitCI "guest".toList s).orElse (fun _ =>
      (matchLitCI "narrator".toList s).orElse (fun _ => do
        let s ← matchLitCI "speaker ".toList s
        matchPlus Char.isDigit s)))
    match afterName with
    | none => none
    | some s => do
      let s ← matchOne (· == ':') s
      pure (matchStar isSpaceChar s)

/-- Boilerplate phrase `lit[^.!?]+[.!?]` or `lit[^.!?]*[.!?]` (IGNORECASE). -/
def mPhrase (lit : List Char) (plusReq : Bool) (s : List Char) :
    Option (List Char) := do
  let s ← matchLitCI lit s
  if plusReq then do
    let s ← matchPlus (fun c => !(isTermChar c)) s
    matchOne isTermChar s
  else
    matchOne isTermChar (matchStar (fun c => !(isTermChar c)) s)

/-- Boilerplate phrase `lit[.!?]` (IGNORECASE), no middle class. -/
def mPhraseLit (lit : List Char) (s : List Char) : Option (List Char) := do
  let s ← matchLitCI lit s
  matchOne isTermChar s

def aposC : Char := Char.ofNat 39

/-- Literal of the source pattern `don\'t forget to subscribe`. -/
def phraseDont : List Char :=
  "don".toList ++ [aposC] ++ "t forget to subscribe".toList

/-- Literal of the source pattern `let\'s get into it`. -/
def phraseLets : List Char :=
  "let".toList ++ [aposC] ++ "s get into it".toList

/-- Pattern `\[MUSIC\]|\[SOUND EFFECT\]|\[SFX\]|\[AUDIO\]` (IGNORECASE). -/
def mCue (s : List Char) : Option (List Char) :=
  (matchLitCI "[music]".toList s).orElse (fun _ =>
  (matchLitCI "[sound effect]".toList s).orElse (fun _ =>
  (matchLitCI "[sfx]".toList s).orElse (fun _ =>
  matchLitCI "[audio]".toList s)))

/-- `handler.clean_transcript` of src/api/split_story.py: the substitution
passes in source order, then whitespace collapsing and `strip()`. -/
def clean_transcript (text : String) : String :=
  let t := text.toList
  let t := reSub mTimestamp [] t
  let t := reSub mClock3 [] t
  let t := reSub mClock2 [] t
  let t := reSubB mSpeaker [] t
  let t := reSub (mPhrase "welcome to ".toList true) [] t
  let t := reSub (mPhrase phraseDont false) [] t
  let t := reSub (mPhrase "this episode is brought to you by".toList false) [] t
  let t := reSub (mPhrase "thanks to our sponsor".toList false) [] t
  let t := reSub (mPhrase "before we begin".toList false) [] t
  let t := reSub (mPhraseLit phraseLets) [] t
  let t := reSub mCue [] t
  let t := reSub (matchPlus isSpaceChar) [' '] t
  String.mk (stripL t)

/-- `re.split(r'(?<=[.!?])\s+', text)`: split on each maximal whitespace run
whose first character is preceded by `.`, `!` or `?`.  The `Bool` flag is
true while consuming the remainder of such a run. -/
def ssAux : Bool → List Char → List Char → List (List Char)
  | _, acc, [] => [acc.reverse]
  | true, acc, c :: cs =>
    if isSpaceChar c then ssAux true acc cs
    else ssAux false [c] cs
  | false, acc, c :: cs =>
    if isSpaceChar c && (match acc.head? with
        | some p => isTermChar p
        | none => false) then
      acc.reverse :: ssAux true [] cs
    else ssAux false (c :: acc) cs

def splitSentences (text : String) : List String :=
  (ssAux false [] text.toList).map String.mk

/-- The sentence-accumulation loop of `handler.split_into_parts`
(src/api/split_story.py lines 107-138), kept at the granularity of sentence
lists: each emitted element is the `current_part` list of one appended part.
`target * 4 / 5` and `target * 6 / 5` embed `int(target_words * 0.8)` and
`int(target_words * 1.2)`. -/
def splitLoop (target minW maxW : Nat) :
    List String → List String → Nat → List (List String)
  | [], buf, _ => if buf = [] then [] else [buf]
  | s₀ :: rest, buf, cc =>
    let s := pyStrip s₀
    if s = "" then splitLoop target minW maxW rest buf cc
    else
      let sw := wordCount s
      if cc > 0 ∧ cc + sw > maxW then
        if minW ≤ cc then buf :: splitLoop target minW maxW rest [s] sw
        else splitLoop target minW maxW rest (buf ++ [s]) (cc + sw)
      else
        if target ≤ cc + sw then (buf ++ [s]) :: splitLoop target minW maxW rest [] 0
        else splitLoop target minW maxW rest (buf ++ [s]) (cc + sw)

/-- The parts of `split_into_parts text target`, each as its sentence list. -/
def sentenceParts (text : String) (target : Nat) : List (List String) :=
  splitLoop target (target * 4 / 5) (target * 6 / 5) (splitSentences text) [] 0

/-- `handler.split_into_parts` of src/api/split_story.py: the emitted parts,
each `' '.join(current_part)`. -/
def split_into_parts (text : String) (target : Nat) : List String :=
  (sentenceParts text target).map (String.intercalate " ")

/-- Modelled from the spec wording of the split policy (C2): identical
structure to the code but gated on "current buffer is non-empty" instead of
`current_word_count > 0`. -/
def splitSpecLoop (target minW maxW : Nat) :
    List String → List String → Nat → List (List String)
  | [], buf, _ => if buf = [] then [] else [buf]
  | s₀ :: rest, buf, cc =>
    let s := pyStrip s₀
    if s = "" then splitSpecLoop target minW maxW rest buf cc
    else
      let sw := wordCount s
      if buf ≠ [] ∧ cc + sw > maxW then
        if minW ≤ cc then buf :: splitSpecLoop target minW maxW rest [s] sw
        else splitSpecLoop target minW maxW rest (buf ++ [s]) (cc + sw)
      else
        if target ≤ cc + sw then
          (buf ++ [s]) :: splitSpecLoop target minW maxW rest [] 0
        else splitSpecLoop target minW maxW rest (buf ++ [s]) (cc + sw)

def split_into_parts_spec (text : String) (target : Nat) : List String :=
  ((splitSpecLoop target (target * 4 / 5) (target * 6 / 5)
    (splitSentences text) [] 0).map (String.intercalate " "))

/-- The stripped, non-blank sentences of a text, in order (the sentences the
split loop actually consumes). -/
def nonblankSentences (text : String) : List String :=
  ((splitSentences text).map pyStrip).filter (fun s => !(s == ""))

end SplitStory

/-! ## The common response envelope

`send_success_response` / `send_error_response` of every handler: a request
either produces a 200 JSON body or an error status with an `{"error": msg}`
body, never both.  An error response carries no other payload (this is what
"no partial results" means for the translation endpoint). -/

inductive Resp (α : Type) where
  | success : α → Resp α
  | failure : Nat → String → Resp α
deriving DecidableEq, Repr

/-! ## The batch-window formulas shared by the batch endpoints -/

def batchStart (batch_index batch_size : Nat) : Nat := batch_index * batch_size

def batchEnd (batch_index batch_size n : Nat) : Nat :=
  min (batch_index * batch_size + batch_size) n

def batchHasMore (batch_index batch_size n : Nat) : Bool :=
  decide (batchEnd batch_index batch_size n < n)

/-! ## src/api/translate_text.py -/

namespace TranslateText

structure TranslateOut where
  translated_batch : List String
  batch_index : Nat
  batch_size : Nat
  batch_start : Nat
  batch_end : Nat
  total_parts : Nat
  has_more : Bool
  next_batch_index : Option Nat
  original_chars : Nat
  translated_chars : Nat
deriving DecidableEq, Repr

/-- The per-item loop of `do_POST` (lines 41-55): a blank part contributes
`""` without calling `translate_text`; the first failing translation aborts
with the failing global index and message.  `tr` is the oracle for
`handler.translate_text` (the chain of external translation services). -/
def translateLoop (tr : String → Except String String) :
    Nat → List String → Except (Nat × String) (List String)
  | _, [] => Except.ok []
  | idx, p :: rest =>
    if isBlank p then
      match translateLoop tr (idx + 1) rest with
      | Except.ok l => Except.ok ("" :: l)
      | Except.error e => Except.error e
    else
      match tr p with
      | Except.ok t =>
        match translateLoop tr (idx + 1) rest with
        | Except.ok l => Except.ok (t :: l)
        | Except.error e => Except.error e
      | Except.error e => Except.error (idx, e)

/-- The first item of the batch slice (with its global index) that is
non-blank and whose translation fails. -/
def firstFailure (tr : String → Except String String) :
    Nat → List String → Option (Nat × String)
  | _, [] => none
  | idx, p :: rest =>
    if isBlank p then firstFailure tr (idx + 1) rest
    else
      match tr p with
      | Except.ok _ => firstFailure tr (idx + 1) rest
      | Except.error e => some (idx, e)

/-- `handler.do_POST` of src/api/translate_text.py, from the validated
request fields onward. -/
def do_POST (tr : String → Except String String) (parts : List String)
    (batch_index batch_size : Nat) : Resp TranslateOut :=
  if parts.isEmpty then Resp.failure 400 "Parts array cannot be empty"
  else
    let start_idx := batch_index * batch_size
    let end_idx := min (start_idx + batch_size) parts.length
    let batch_parts := pySlice parts start_idx end_idx
    match translateLoop tr start_idx batch_parts with
    | Except.error ie =>
      Resp.failure 500
        ("Translation failed at part " ++ toString (ie.1 + 1) ++ ": " ++ ie.2)
    | Except.ok translated_batch =>
      Resp.success
        { translated_batch := translated_batch
          batch_index := batch_index
          batch_size := batch_size
          batch_start := start_idx
          batch_end := end_idx
          total_parts := parts.length
          has_more := decide (end_idx < parts.length)
          next_batch_index :=
            if end_idx < parts.length then some (batch_index + 1) else none
          original_chars := (batch_parts.map String.length).sum
          translated_chars := (translated_batch.map String.length).sum }

end TranslateText

/-! ## src/api/generate_tts.py -/

namespace GenerateTts

/-- The dict returned by a successful `handler.generate_audio` call (gTTS +
pydub, external): base64 audio, duration, byte size, `"format": "mp3"`.
The duration is whatever the library computed; only the zero written into
error slots matters to the claims, so it is carried abstractly as an `Int`
field of the oracle's output. -/
structure TtsOk where
  audio : String
  duration : Int
  size : Nat
  format : String
deriving DecidableEq, Repr

/-- One slot of `audio_batch`: either the success dict or
`{audio: None, duration: 0, size: 0, error: msg}`. -/
structure TtsItem where
  audio : Option String
  duration : Int
  size : Nat
  format : Option String
  error : Option String
deriving DecidableEq, Repr

def ttsItemOfOk (a : TtsOk) : TtsItem :=
  { audio := some a.audio, duration := a.duration, size := a.size,
    format := some a.format, error := none }

def ttsErrItem (e : String) : TtsItem :=
  { audio := none, duration := 0, size := 0, format := none, error := some e }

/-- The body of the per-item `for` loop (lines 47-71). -/
def ttsProcess (gen : String → Except String TtsOk) (p : String) : TtsItem :=
  if isBlank p then ttsErrItem "Empty text"
  else
    match gen p with
    | Except.ok a => ttsItemOfOk a
    | Except.error e => ttsErrItem e

def ttsLoop (gen : String → Except String TtsOk) : List String → List TtsItem
  | [] => []
  | p :: rest => ttsProcess gen p :: ttsLoop gen rest

structure TtsOut where
  audio_batch : List TtsItem
  batch_index : Nat
  batch_size : Nat
  batch_start : Nat
  batch_end : Nat
  total_parts : Nat
  has_more : Bool
  next_batch_index : Option Nat
deriving DecidableEq, Repr

/-- `handler.do_POST` of src/api/generate_tts.py, from the validated request
fields onward.  The voice settings are absorbed into the `gen` oracle. -/
def do_POST (gen : String → Except String TtsOk) (parts : List String)
    (batch_index batch_size : Nat) : Resp TtsOut :=
  if parts.isEmpty then Resp.failure 400 "Parts array cannot be empty"
  else
    let start_idx := batch_index * batch_size
    let end_idx := min (start_idx + batch_size) parts.length
    Resp.success
      { audio_batch := ttsLoop gen (pySlice parts start_idx end_idx)
        batch_index := batch_index
        batch_size := batch_size
        batch_start := start_idx
        batch_end := end_idx
        total_parts := parts.length
        has_more := decide (end_idx < parts.length)
        next_batch_index :=
          if end_idx < parts.length then some (batch_index + 1) else none }

end GenerateTts

/-! ## src/api/generate_images.py -/

namespace GenerateImages

/-- The dict returned by a successful `handler.generate_image` call
(HuggingFace Stable Diffusion, external). -/
structure ImgOk where
  image : String
  width : Nat
  height : Nat
  size : Nat
deriving DecidableEq, Repr

/-- One slot of `image_batch`: success dict or
`{image: None, width: 0, height: 0, size: 0, error: msg}`. -/
structure ImgItem where
  image : Option String
  width : Nat
  height : Nat
  size : Nat
  error : Option String
deriving DecidableEq, Repr

def imgItemOfOk (a : ImgOk) : ImgItem :=
  { image := some a.image, width := a.width, height := a.height,
    size := a.size, error := none }

def imgErrItem (e : String) : ImgItem :=
  { image := none, width := 0, height := 0, size := 0, error := some e }

/-- The body of the per-item `for` loop (lines 44-70); `generate_image`
receives `actual_index + 1` as the part number. -/
def imgProcess (gen : String → Nat → Except String ImgOk) (idx : Nat)
    (p : String) : ImgItem :=
  if isBlank p then imgErrItem "Empty text"
  else
    match gen p (idx + 1) with
    | Except.ok a => imgItemOfOk a
    | Except.error e => imgErrItem e

def imgLoop (gen : String → Nat → Except String ImgOk) :
    Nat → List String → List ImgItem
  | _, [] => []
  | idx, p :: rest => imgProcess gen idx p :: imgLoop gen (idx + 1) rest

structure ImgOut where
  image_batch : List ImgItem
  batch_index : Nat
  batch_size : Nat
  batch_start : Nat
  batch_end : Nat
  total_parts : Nat
  has_more : Bool
  next_batch_index : Option Nat
deriving DecidableEq, Repr

/-- `handler.do_POST` of src/api/generate_images.py, from the validated
request fields onward. -/
def do_POST (gen : String → Nat → Except String ImgOk) (parts : List String)
    (batch_index batch_size : Nat) : Resp ImgOut :=
  if parts.isEmpty then Resp.failure 400 "Parts array cannot be empty"
  else
    let start_idx := batch_index * batch_size
    let end_idx := min (start_idx + batch_size) parts.length
    Resp.success
      { image_batch := imgLoop gen start_idx (pySlice parts start_idx end_idx)
        batch_index := batch_index
        batch_size := batch_size
        batch_start := start_idx
        batch_end := end_idx
        total_parts := parts.length
        has_more := decide (end_idx < parts.length)
        next_batch_index :=
          if end_idx < parts.length then some (batch_index + 1) else none }

end GenerateImages

/-! ## src/api/create_videos.py -/

namespace CreateVideos

/-- The dict returned by a successful `handler.create_video` call (PIL +
imageio encoding, external). -/
structure VidOk where
  video : String
  duration : Int
  width : Nat
  height : Nat
  size : Nat
deriving DecidableEq, Repr

/-- One slot of `video_batch`: success dict or
`{video: None, duration: 0, width: 0, height: 0, size: 0, error: msg}`. -/
structure VidItem where
  video : Option String
  duration : Int
  width : Nat
  height : Nat
  size : Nat
  error : Option String
deriving DecidableEq, Repr

def vidItemOfOk (a : VidOk) : VidItem :=
  { video := some a.video, duration := a.duration, width := a.width,
    height := a.height, size := a.size, error := none }

def vidErrItem (e : String) : VidItem :=
  { video := none, duration := 0, width := 0, height := 0, size := 0,
    error := some e }

/-- The body of the per-index `for` loop (lines 44-66).  The list indexing
happens inside the `try`, so an out-of-range index would itself be caught
and recorded as that slot's error (it cannot occur after the length check). -/
def vidProcess {A I : Type} (cv : A → I → String → Nat → Except String VidOk)
    (audios : List A) (imgs : List I) (texts : List String) (i : Nat) :
    VidItem :=
  match audios.get? i, imgs.get? i, texts.get? i with
  | some a, some im, some t =>
    (match cv a im t (i + 1) with
     | Except.ok v => vidItemOfOk v
     | Except.error e => vidErrItem e)
  | _, _, _ => vidErrItem "list index out of range"

def vidLoop {A I : Type} (cv : A → I → String → Nat → Except String VidOk)
    (audios : List A) (imgs : List I) (texts : List String) :
    List Nat → List VidItem
  | [] => []
  | i :: rest =>
    vidProcess cv audios imgs texts i :: vidLoop cv audios imgs texts rest

structure VidOut where
  video_batch : List VidItem
  batch_index : Nat
  batch_size : Nat
  batch_start : Nat
  batch_end : Nat
  total_parts : Nat
  has_more : Bool
  next_batch_index : Option Nat
deriving DecidableEq, Repr

/-- `handler.do_POST` of src/api/create_videos.py, from the validated
request fields onward; `cv` is the oracle for `handler.create_video`. -/
def do_POST {A I : Type} (cv : A → I → String → Nat → Except String VidOk)
    (audio_files : List A) (image_files : List I)
    (translated_parts : List String) (batch_index batch_size : Nat) :
    Resp VidOut :=
  if audio_files.length ≠ image_files.length ∨
      audio_files.length ≠ translated_parts.length then
    Resp.failure 400
      "audio_files, image_files, and translated_parts must have the same length"
  else
    let start_idx := batch_index * batch_size
    let end_idx := min (start_idx + batch_size) audio_files.length
    Resp.success
      { video_batch := vidLoop cv audio_files image_files translated_parts
          (pyRange start_idx end_idx)
        batch_index := batch_index
        batch_size := batch_size
        batch_start := start_idx
        batch_end := end_idx
        total_parts := audio_files.length
        has_more := decide (end_idx < audio_files.length)
        next_batch_index :=
          if end_idx < audio_files.length then some (batch_index + 1)
          else none }

end CreateVideos

/-! ## src/api/generate_metadata.py -/

namespace GenerateMetadata

structure PartMeta where
  part_number : Nat
  title : String
  description : String
  tags : List String
  key_phrases : List String
deriving DecidableEq, Repr

/-- `handler.create_default_metadata` of src/api/generate_metadata.py. -/
def create_default_metadata (part_number total_parts : Nat) : PartMeta :=
  { part_number := part_number
    title :=
      if total_parts > 1 then
        "Bahagi " ++ toString part_number ++ ": Kwentong Takot"
      else "Kwentong Takot"
    description :=
      "Bahagi " ++ toString part_number ++
        " ng kwentong takot.\n\nMag-subscribe para sa mas maraming kwento!"
    tags := ["kwentong takot", "true crime", "horror story", "tagalog horror"]
    key_phrases := [] }

/-- The per-part loop of `do_POST` (lines 31-42): the part generator runs
inside `try`, any exception is replaced by the default metadata for that
part.  `genPart` abstracts `handler.generate_part_metadata` as a fallible
operation (the concrete source function is pure string processing; the
`Except` failure models the Python exception the `try` guards against). -/
def metaLoop (genPart : String → Nat → Nat → Except String PartMeta)
    (total : Nat) : Nat → List String → List PartMeta
  | _, [] => []
  | i, p :: rest =>
    (match genPart p (i + 1) total with
     | Except.ok m => m
     | Except.error _ => create_default_metadata (i + 1) total) ::
      metaLoop genPart total (i + 1) rest

structure MetaOut (φ : Type) where
  part_metadata : List PartMeta
  full_metadata : φ
  total_parts : Nat
deriving DecidableEq, Repr

/-- `handler.do_POST` of src/api/generate_metadata.py, from the validated
request fields onward.  `genFull` abstracts the pure, total
`handler.generate_full_metadata` (called outside any per-part `try`). -/
def do_POST {φ : Type} (genPart : String → Nat → Nat → Except String PartMeta)
    (genFull : List String → φ) (translated_parts : List String) :
    Resp (MetaOut φ) :=
  if translated_parts.isEmpty then
    Resp.failure 400 "translated_parts array cannot be empty"
  else
    Resp.success
      { part_metadata := metaLoop genPart translated_parts.length 0 translated_parts
        full_metadata := genFull translated_parts
        total_parts := translated_parts.length }

end GenerateMetadata

/-! ## src/api/extract_text.py -/

instance {ε α : Type} [DecidableEq ε] [DecidableEq α] : DecidableEq (Except ε α) :=
  fun x y =>
    match x, y with
    | Except.ok a, Except.ok b =>
      if h : a = b then isTrue (by rw [h])
      else isFalse (by intro hh; cases hh; exact h rfl)
    | Except.error a, Except.error b =>
      if h : a = b then isTrue (by rw [h])
      else isFalse (by intro hh; cases hh; exact h rfl)
    | Except.ok _, Except.error _ => isFalse (by intro hh; cases hh)
    | Except.error _, Except.ok _ => isFalse (by intro hh; cases hh)

namespace ExtractText

/-- The `PyPDF2.PdfReader` result, as far as `do_POST` inspects it: the
encryption flag and, per page, the outcome of `page.extract_text()`
(`Except.error` models a page-level exception, which the loop skips). -/
structure PdfReader where
  is_encrypted : Bool
  pages : List (Except String String)
deriving DecidableEq, Repr

/-- Outcome of constructing the reader: success, a `PdfReadError`, or any
other exception. -/
inductive PdfParse where
  | ok : PdfReader → PdfParse
  | readErr : String → PdfParse
  | otherErr : String → PdfParse
deriving DecidableEq, Repr

/-- The page loop (lines 68-77): accumulate `text + "\n\n"` for every page
whose extraction succeeds with non-blank text, counting those pages. -/
def collectText : List (Except String String) → String × Nat
  | [] => ("", 0)
  | p :: rest =>
    let r := collectText rest
    match p with
    | Except.ok txt =>
      if !(isBlank txt) then (txt ++ "\n\n" ++ r.1, r.2 + 1) else r
    | Except.error _ => r

/-- `b'%PDF'` magic-byte test on the decoded file bytes. -/
def pdfMagic : List Nat → Bool
  | 37 :: 80 :: 68 :: 70 :: _ => true
  | _ => false

structure ExtractOut where
  text : String
  pages : Nat
  extracted_pages : Nat
  characters : Nat
deriving DecidableEq, Repr

/-- `handler.do_POST` of src/api/extract_text.py from the decoded file bytes
onward (body-size, missing-field and base64 checks are upstream of the
claims); `parse` is the oracle outcome of `PyPDF2.PdfReader(pdf_file)`. -/
def do_POST (pdf_bytes : List Nat) (parse : PdfParse) : Resp ExtractOut :=
  if !(pdfMagic pdf_bytes) then Resp.failure 400 "File is not a valid PDF"
  else
    match parse with
    | PdfParse.readErr e => Resp.failure 400 ("Invalid or corrupted PDF: " ++ e)
    | PdfParse.otherErr e => Resp.failure 500 ("Error reading PDF: " ++ e)
    | PdfParse.ok r =>
      if r.is_encrypted then
        Resp.failure 400
          "PDF is password-protected. Please upload an unencrypted PDF."
      else if r.pages.length > 100 then
        Resp.failure 400
          ("PDF has " ++ toString r.pages.length ++
            " pages. Maximum 100 pages supported. Please split your PDF.")
      else
        let res := collectText r.pages
        if isBlank res.1 then
          Resp.failure 400
            "No text could be extracted. PDF might contain only images or be corrupted."
        else
          Resp.success
            { text := pyStrip res.1
              pages := r.pages.length
              extracted_pages := res.2
              characters := (pyStrip res.1).length }

end ExtractText

/-! ## Helper lemmas -/

theorem dropWhile_head?_not (p : Char → Bool) :
    ∀ (l : List Char) (c : Char), (List.dropWhile p l).head? = some c → p c = false := by
  intro l
  induction l with
  | nil => intro c h; simp [List.dropWhile] at h
  | cons a t ih =>
    intro c h
    rw [List.dropWhile_cons] at h
    by_cases hp : p a
    · simp [hp] at h; exact ih c h
    · simp [hp] at h
      cases h
      simpa using hp

theorem stripL_head_not_space (l : List Char) (c : Char) (cs : List Char)
    (h : stripL l = c :: cs) : isSpaceChar c = false := by
  have hh : (List.dropWhile isSpaceChar
      ((List.dropWhile isSpaceChar l.reverse).reverse)).head? = some c := by
    rw [show List.dropWhile isSpaceChar
        ((List.dropWhile isSpaceChar l.reverse).reverse) = stripL l from rfl, h]
    rfl
  exact dropWhile_head?_not _ _ _ hh

theorem wordCount_pos (s : String) (h : pyStrip s ≠ "") : 0 < wordCount (pyStrip s) := by
  cases hl : stripL s.toList with
  | nil =>
    have hl2 : stripL s.data = [] := hl
    exact absurd (by unfold pyStrip; rw [show s.toList = s.data from rfl, hl2]) h
  | cons c cs =>
    have hc : isSpaceChar c = false := stripL_head_not_space _ _ _ hl
    have hl2 : stripL s.data = c :: cs := hl
    show 0 < countWordsAux false (stripL s.data)
    rw [hl2]
    simp [countWordsAux, hc]

/-! ## Claim theorems -/

/-- C9: on the input `"0 (1m 2s): Hello. [MUSIC] World."`, `clean_transcript`
returns exactly `"Hello. World."`: the `0 (1m 2s):` marker and the `[MUSIC]`
cue are stripped, whitespace runs are collapsed to single spaces, and the
result is trimmed. -/
theorem c9_clean_transcript_example :
    SplitStory.clean_transcript "0 (1m 2s): Hello. [MUSIC] World." =
      "Hello. World." := by
  rfl

/-- C1 counterexample: the claimed invariant `0 ≤ start ≤ end ≤ len(items)`
does not hold for every request with a non-empty items list, `batch_index ≥ 0`
and `batch_size > 0`.  With `items = ["a"]`, `batch_index = 2`,
`batch_size = 1` the translate endpoint returns `batch_start = 2` and
`batch_end = 1`, so `start ≤ end` fails (the request is not rejected; it
succeeds with an empty window). -/
theorem c1_batch_window_counterexample :
    (TranslateText.do_POST (fun t => Except.ok t) ["a"] 2 1 = Resp.success
      { translated_batch := [], batch_index := 2, batch_size := 1,
        batch_start := 2, batch_end := 1, total_parts := 1, has_more := false,
        next_batch_index := none, original_chars := 0,
        translated_chars := 0 }) ∧ ¬((2 : Nat) ≤ 1) := by
  exact ⟨by decide, by decide⟩

/-- C6 counterexample: in the translate endpoint a blank item does not
produce an `{error: "Empty text"}` result in its slot — it contributes the
plain empty string `""` to `translated_batch` (the `translated_batch` slots
are plain strings and carry no error records at all).  The always-failing
oracle shows the translation operation is still not invoked for the blank
item: had it been called, the whole request would have aborted with a 500. -/
theorem c6_empty_item_counterexample :
    TranslateText.do_POST (fun _ => Except.error "translator invoked") [" "] 0 10 =
      Resp.success
        { translated_batch := [""], batch_index := 0, batch_size := 10,
          batch_start := 0, batch_end := 1, total_parts := 1, has_more := false,
          next_batch_index := none, original_chars := 1,
          translated_chars := 0 } := by
  decide

/-- C8: `extract_text` rejects with a 400 error every input whose decoded
bytes do not start with the `%PDF` magic bytes, every encrypted PDF, and
every PDF with more than 100 pages; a valid unencrypted PDF with at most 100
pages from which (non-blank) text is extracted passes these checks and
yields the `{text, pages, extracted_pages, characters}` success body. -/
theorem c8_extract_checks :
    (∀ (pdf_bytes : List Nat) (parse : ExtractText.PdfParse),
      ExtractText.pdfMagic pdf_bytes = false →
        ExtractText.do_POST pdf_bytes parse =
          Resp.failure 400 "File is not a valid PDF") ∧
    (∀ (pdf_bytes : List Nat) (r : ExtractText.PdfReader),
      ExtractText.pdfMagic pdf_bytes = true → r.is_encrypted = true →
        ExtractText.do_POST pdf_bytes (ExtractText.PdfParse.ok r) =
          Resp.failure 400
            "PDF is password-protected. Please upload an unencrypted PDF.") ∧
    (∀ (pdf_bytes : List Nat) (r : ExtractText.PdfReader),
      ExtractText.pdfMagic pdf_bytes = true → r.is_encrypted = false →
      100 < r.pages.length →
        ExtractText.do_POST pdf_bytes (ExtractText.PdfParse.ok r) =
          Resp.failure 400
            ("PDF has " ++ toString r.pages.length ++
              " pages. Maximum 100 pages supported. Please split your PDF.")) ∧
    (∀ (pdf_bytes : List Nat) (r : ExtractText.PdfReader),
      ExtractText.pdfMagic pdf_bytes = true → r.is_encrypted = false →
      r.pages.length ≤ 100 →
      isBlank (ExtractText.collectText r.pages).1 = false →
        ExtractText.do_POST pdf_bytes (ExtractText.PdfParse.ok r) =
          Resp.success
            { text := pyStrip (ExtractText.collectText r.pages).1,
              pages := r.pages.length,
              extracted_pages := (ExtractText.collectText r.pages).2,
              characters := (pyStrip (ExtractText.collectText r.pages).1).length }) := by
  refine ⟨?_, ?_, ?_, ?_⟩
  · intro pdf_bytes parse h
    simp [ExtractText.do_POST, h]
  · intro pdf_bytes r hm henc
    simp [ExtractText.do_POST, hm, henc]
  · intro pdf_bytes r hm henc hpages
    simp [ExtractText.do_POST, hm, henc, hpages]
  · intro pdf_bytes r hm henc hpages hblank
    simp [ExtractText.do_POST, hm, henc, hblank, show ¬(100 < r.pages.length) by omega]

/-- C8 witness: each of the four branches of `c8_extract_checks` exercised at
a concrete input. -/
theorem c8_extract_checks_witness :
    (ExtractText.do_POST [0]
        (ExtractText.PdfParse.ok { is_encrypted := false, pages := [] }) =
      Resp.failure 400 "File is not a valid PDF") ∧
    (ExtractText.do_POST [37, 80, 68, 70]
        (ExtractText.PdfParse.ok { is_encrypted := true, pages := [] }) =
      Resp.failure 400
        "PDF is password-protected. Please upload an unencrypted PDF.") ∧
    (ExtractText.do_POST [37, 80, 68, 70]
        (ExtractText.PdfParse.ok
          { is_encrypted := false,
            pages := List.replicate 101 (Except.ok "x") }) =
      Resp.failure 400
        ("PDF has " ++ toString (List.replicate 101 (Except.ok "x") :
            List (Except String String)).length ++
          " pages. Maximum 100 pages supported. Please split your PDF.")) ∧
    (ExtractText.do_POST [37, 80, 68, 70]
        (ExtractText.PdfParse.ok
          { is_encrypted := false, pages := [Except.ok "Hi"] }) =
      Resp.success { text := "Hi", pages := 1, extracted_pages := 1,
                     characters := 2 }) := by
  refine ⟨?_, ?_, ?_, ?_⟩
  · exact c8_extract_checks.1 [0] _ (by decide)
  · exact c8_extract_checks.2.1 [37, 80, 68, 70] _ (by decide) rfl
  · exact c8_extract_checks.2.2.1 [37, 80, 68, 70] _ (by decide) rfl (by decide)
  · exact c8_extract_checks.2.2.2 [37, 80, 68, 70] _ (by decide) rfl
      (by decide) (by decide)

theorem metaLoop_length (genPart : String → Nat → Nat → Except String GenerateMetadata.PartMeta)
    (total : Nat) :
    ∀ (l : List String) (i : Nat),
      (GenerateMetadata.metaLoop genPart total i l).length = l.length := by
  intro l
  induction l with
  | nil => intro i; rfl
  | cons p rest ih =>
    intro i
    simp [GenerateMetadata.metaLoop, ih (i + 1)]

theorem metaLoop_get? (genPart : String → Nat → Nat → Except String GenerateMetadata.PartMeta)
    (total : Nat) :
    ∀ (l : List String) (i k : Nat),
      (GenerateMetadata.metaLoop genPart total i l).get? k =
        (l.get? k).map (fun p =>
          match genPart p (i + k + 1) total with
          | Except.ok m => m
          | Except.error _ =>
            GenerateMetadata.create_default_metadata (i + k + 1) total) := by
  intro l
  induction l with
  | nil => intro i k; simp [GenerateMetadata.metaLoop]
  | cons p rest ih =>
    intro i k
    cases k with
    | zero => simp [GenerateMetadata.metaLoop]
    | succ k' =>
      rw [show GenerateMetadata.metaLoop genPart total i (p :: rest) =
          (match genPart p (i + 1) total with
           | Except.ok m => m
           | Except.error _ =>
             GenerateMetadata.create_default_metadata (i + 1) total) ::
          GenerateMetadata.metaLoop genPart total (i + 1) rest from rfl]
      rw [List.get?_cons_succ, List.get?_cons_succ,
        show i + (k' + 1) + 1 = i + 1 + k' + 1 from by omega]
      exact ih (i + 1) k'

/-- C7: for every non-empty `translated_parts` list, `generate_metadata`
never surfaces a failure: whatever the per-part generator does (including
raising on every part — `genPart` is universally quantified over fallible
operations), the response is a 200 success carrying `part_metadata` (one
entry per part, the generated metadata or `create_default_metadata` for a
part whose generation raised), `full_metadata`, and `total_parts`. -/
theorem c7_metadata_never_fails {φ : Type}
    (genPart : String → Nat → Nat → Except String GenerateMetadata.PartMeta)
    (genFull : List String → φ) (parts : List String) (hp : parts ≠ []) :
    ∃ s, GenerateMetadata.do_POST genPart genFull parts = Resp.success s ∧
      s.total_parts = parts.length ∧
      s.full_metadata = genFull parts ∧
      s.part_metadata.length = parts.length ∧
      ∀ (i : Nat) (p : String), parts.get? i = some p →
        s.part_metadata.get? i = some
          (match genPart p (i + 1) parts.length with
           | Except.ok m => m
           | Except.error _ =>
             GenerateMetadata.create_default_metadata (i + 1) parts.length) := by
  have hne : parts.isEmpty = false := by
    cases parts with
    | nil => exact absurd rfl hp
    | cons a t => rfl
  refine ⟨{ part_metadata := GenerateMetadata.metaLoop genPart parts.length 0 parts,
            full_metadata := genFull parts, total_parts := parts.length },
    ?_, rfl, rfl, metaLoop_length genPart parts.length parts 0, ?_⟩
  · simp [GenerateMetadata.do_POST, hne]
  · intro i p hip
    rw [metaLoop_get? genPart parts.length parts 0 i, hip]
    simp [Nat.zero_add]

/-- C7 witness: a concrete two-part request whose generator raises on the
second part still yields a 200 with the default metadata substituted in slot
1. -/
theorem c7_metadata_never_fails_witness :
    ∃ s, GenerateMetadata.do_POST
        (fun p _ _ => if p == "boom" then Except.error "kaput"
          else Except.ok { part_number := 0, title := p, description := "",
                           tags := [], key_phrases := [] })
        (fun l => String.intercalate " " l) ["ok", "boom"] = Resp.success s ∧
      s.total_parts = 2 ∧
      s.full_metadata = "ok boom" ∧
      s.part_metadata.length = 2 ∧
      s.part_metadata.get? 1 =
        some (GenerateMetadata.create_default_metadata 2 2) := by
  obtain ⟨s, h1, h2, h3, h4, h5⟩ := c7_metadata_never_fails
    (fun p _ _ => if p == "boom" then Except.error "kaput"
      else Except.ok { part_number := 0, title := p, description := "",
                       tags := [], key_phrases := [] })
    (fun l => String.intercalate " " l) ["ok", "boom"] (by decide)
  refine ⟨s, h1, h2, h3.trans (by rfl), h4, ?_⟩
  have h6 := h5 1 "boom" (by decide)
  rw [h6]
  rfl

theorem pySlice_out_of_range {α : Type} (l : List α) (a b : Nat)
    (h : l.length ≤ a) : pySlice l a b = [] := by
  unfold pySlice
  have hlen : (l.take b).length ≤ a := by
    rw [List.length_take]
    omega
  exact List.drop_eq_nil_of_le hlen

/-- C10: a batch request whose window starts at or past the end of the items
list is not rejected: the translate, TTS and image endpoints return a 200
whose batch list is empty, with `has_more = false`,
`next_batch_index = none`, `batch_end = len(parts)` and
`batch_start = batch_index * batch_size` (which may exceed `batch_end`).
The oracles are universally quantified, so no external operation can have
influenced the response. -/
theorem c10_out_of_range_batch
    (tr : String → Except String String)
    (genA : String → Except String GenerateTts.TtsOk)
    (genI : String → Nat → Except String GenerateImages.ImgOk)
    (parts : List String) (bi bs : Nat) (hp : parts ≠ [])
    (h : parts.length ≤ bi * bs) :
    TranslateText.do_POST tr parts bi bs = Resp.success
      { translated_batch := [], batch_index := bi, batch_size := bs,
        batch_start := bi * bs, batch_end := parts.length,
        total_parts := parts.length, has_more := false,
        next_batch_index := none, original_chars := 0,
        translated_chars := 0 } ∧
    GenerateTts.do_POST genA parts bi bs = Resp.success
      { audio_batch := [], batch_index := bi, batch_size := bs,
        batch_start := bi * bs, batch_end := parts.length,
        total_parts := parts.length, has_more := false,
        next_batch_index := none } ∧
    GenerateImages.do_POST genI parts bi bs = Resp.success
      { image_batch := [], batch_index := bi, batch_size := bs,
        batch_start := bi * bs, batch_end := parts.length,
        total_parts := parts.length, has_more := false,
        next_batch_index := none } := by
  have hne : parts.isEmpty = false := by
    cases parts with
    | nil => exact absurd rfl hp
    | cons a t => rfl
  have hmin : min (bi * bs + bs) parts.length = parts.length := by omega
  have hsl : pySlice parts (bi * bs) parts.length = [] :=
    pySlice_out_of_range parts _ _ h
  refine ⟨?_, ?_, ?_⟩
  · simp [TranslateText.do_POST, hne, hmin, hsl, TranslateText.translateLoop]
  · simp [GenerateTts.do_POST, hne, hmin, hsl, GenerateTts.ttsLoop]
  · simp [GenerateImages.do_POST, hne, hmin, hsl, GenerateImages.imgLoop]

/-- C10 witness: one item, `batch_index = 2`, `batch_size = 1`, with
always-failing oracles: every endpoint still answers 200 with an empty
batch. -/
theorem c10_out_of_range_batch_witness :
    TranslateText.do_POST (fun _ => Except.error "e") ["a"] 2 1 = Resp.success
      { translated_batch := [], batch_index := 2, batch_size := 1,
        batch_start := 2, batch_end := 1, total_parts := 1, has_more := false,
        next_batch_index := none, original_chars := 0,
        translated_chars := 0 } ∧
    GenerateTts.do_POST (fun _ => Except.error "e") ["a"] 2 1 = Resp.success
      { audio_batch := [], batch_index := 2, batch_size := 1,
        batch_start := 2, batch_end := 1, total_parts := 1, has_more := false,
        next_batch_index := none } ∧
    GenerateImages.do_POST (fun _ _ => Except.error "e") ["a"] 2 1 = Resp.success
      { image_batch := [], batch_index := 2, batch_size := 1,
        batch_start := 2, batch_end := 1, total_parts := 1, has_more := false,
        next_batch_index := none } :=
  c10_out_of_range_batch (fun _ => Except.error "e") (fun _ => Except.error "e")
    (fun _ _ => Except.error "e") ["a"] 2 1 (by decide) (by decide)

theorem firstFailure_of_exists (tr : String → Except String String) :
    ∀ (l : List String) (idx : Nat),
      (∃ (j : Nat) (p : String), l.get? j = some p ∧ isBlank p = false ∧
        ∃ msg, tr p = Except.error msg) →
      ∃ i e, TranslateText.firstFailure tr idx l = some (i, e) := by
  intro l
  induction l with
  | nil =>
    intro idx ⟨j, p, hj, _, _⟩
    simp at hj
  | cons p0 rest ih =>
    intro idx ⟨j, p, hj, hb, msg, hmsg⟩
    by_cases hb0 : isBlank p0
    · rw [show TranslateText.firstFailure tr idx (p0 :: rest) =
          TranslateText.firstFailure tr (idx + 1) rest from by
        simp [TranslateText.firstFailure, hb0]]
      apply ih (idx + 1)
      cases j with
      | zero =>
        rw [List.get?_cons_zero] at hj
        cases hj
        rw [hb0] at hb
        cases hb
      | succ j' =>
        rw [List.get?_cons_succ] at hj
        exact ⟨j', p, hj, hb, msg, hmsg⟩
    · cases htr : tr p0 with
      | error e0 =>
        refine ⟨idx, e0, ?_⟩
        simp [TranslateText.firstFailure, hb0, htr]
      | ok t =>
        rw [show TranslateText.firstFailure tr idx (p0 :: rest) =
            TranslateText.firstFailure tr (idx + 1) rest from by
          simp [TranslateText.firstFailure, hb0, htr]]
        apply ih (idx + 1)
        cases j with
        | zero =>
          rw [List.get?_cons_zero] at hj
          cases hj
          rw [htr] at hmsg
          cases hmsg
        | succ j' =>
          rw [List.get?_cons_succ] at hj
          exact ⟨j', p, hj, hb, msg, hmsg⟩

theorem translateLoop_error_of_firstFailure (tr : String → Except String String) :
    ∀ (l : List String) (idx i : Nat) (e : String),
      TranslateText.firstFailure tr idx l = some (i, e) →
      TranslateText.translateLoop tr idx l = Except.error (i, e) := by
  intro l
  induction l with
  | nil => intro idx i e h; simp [TranslateText.firstFailure] at h
  | cons p0 rest ih =>
    intro idx i e h
    by_cases hb0 : isBlank p0
    · rw [show TranslateText.firstFailure tr idx (p0 :: rest) =
          TranslateText.firstFailure tr (idx + 1) rest from by
        simp [TranslateText.firstFailure, hb0]] at h
      have hrec := ih (idx + 1) i e h
      simp [TranslateText.translateLoop, hb0, hrec]
    · cases htr : tr p0 with
      | error e0 =>
        rw [show TranslateText.firstFailure tr idx (p0 :: rest) =
            some (idx, e0) from by
          simp [TranslateText.firstFailure, hb0, htr]] at h
        cases h
        simp [TranslateText.translateLoop, hb0, htr]
      | ok t =>
        rw [show TranslateText.firstFailure tr idx (p0 :: rest) =
            TranslateText.firstFailure tr (idx + 1) rest from by
          simp [TranslateText.firstFailure, hb0, htr]] at h
        have hrec := ih (idx + 1) i e h
        simp [TranslateText.translateLoop, hb0, htr, hrec]

/-- C4: if some non-blank item of the translate batch slice fails to
translate, there is a first such item (global index `i`), and the endpoint
answers the whole request with a 500 error naming that item — the error
constructor of `Resp` carries no payload besides the status and message, so
no partial results (no `translated_batch`) are returned. -/
theorem c4_translate_abort (tr : String → Except String String)
    (parts : List String) (bi bs : Nat) (hp : parts ≠ []) :
    ((∃ (j : Nat) (p : String),
        (pySlice parts (bi * bs) (min (bi * bs + bs) parts.length)).get? j = some p ∧
        isBlank p = false ∧ ∃ msg, tr p = Except.error msg) →
      ∃ i e, TranslateText.firstFailure tr (bi * bs)
        (pySlice parts (bi * bs) (min (bi * bs + bs) parts.length)) = some (i, e)) ∧
    (∀ (i : Nat) (e : String),
      TranslateText.firstFailure tr (bi * bs)
        (pySlice parts (bi * bs) (min (bi * bs + bs) parts.length)) = some (i, e) →
      TranslateText.do_POST tr parts bi bs =
        Resp.failure 500
          ("Translation failed at part " ++ toString (i + 1) ++ ": " ++ e)) := by
  have hne : parts.isEmpty = false := by
    cases parts with
    | nil => exact absurd rfl hp
    | cons a t => rfl
  constructor
  · exact firstFailure_of_exists tr _ (bi * bs)
  · intro i e h
    have hloop := translateLoop_error_of_firstFailure tr _ (bi * bs) i e h
    simp [TranslateText.do_POST, hne, hloop]

/-- C4 witness: a concrete batch `["good", "bad"]` whose second item fails:
the whole request aborts with the 500 naming part 2. -/
theorem c4_translate_abort_witness :
    TranslateText.do_POST
      (fun t => if t == "bad" then Except.error "boom" else Except.ok t)
      ["good", "bad"] 0 10 =
    Resp.failure 500 ("Translation failed at part " ++ toString (1 + 1) ++ ": " ++ "boom") :=
  (c4_translate_abort
    (fun t => if t == "bad" then Except.error "boom" else Except.ok t)
    ["good", "bad"] 0 10 (by decide)).2 1 "boom" (by decide)

theorem ttsLoop_length (gen : String → Except String GenerateTts.TtsOk) :
    ∀ (l : List String), (GenerateTts.ttsLoop gen l).length = l.length := by
  intro l
  induction l with
  | nil => rfl
  | cons p rest ih => simp [GenerateTts.ttsLoop, ih]

theorem ttsLoop_get? (gen : String → Except String GenerateTts.TtsOk) :
    ∀ (l : List String) (k : Nat),
      (GenerateTts.ttsLoop gen l).get? k =
        (l.get? k).map (GenerateTts.ttsProcess gen) := by
  intro l
  induction l with
  | nil => intro k; rfl
  | cons p rest ih =>
    intro k
    cases k with
    | zero => rfl
    | succ k' =>
      rw [show GenerateTts.ttsLoop gen (p :: rest) =
          GenerateTts.ttsProcess gen p :: GenerateTts.ttsLoop gen rest from rfl]
      rw [List.get?_cons_succ, List.get?_cons_succ]
      exact ih k'

theorem imgLoop_length (gen : String → Nat → Except String GenerateImages.ImgOk) :
    ∀ (l : List String) (idx : Nat),
      (GenerateImages.imgLoop gen idx l).length = l.length := by
  intro l
  induction l with
  | nil => intro idx; rfl
  | cons p rest ih => intro idx; simp [GenerateImages.imgLoop, ih (idx + 1)]

theorem imgLoop_get? (gen : String → Nat → Except String GenerateImages.ImgOk) :
    ∀ (l : List String) (idx k : Nat),
      (GenerateImages.imgLoop gen idx l).get? k =
        (l.get? k).map (GenerateImages.imgProcess gen (idx + k)) := by
  intro l
  induction l with
  | nil => intro idx k; rfl
  | cons p rest ih =>
    intro idx k
    cases k with
    | zero =>
      rw [show GenerateImages.imgLoop gen idx (p :: rest) =
          GenerateImages.imgProcess gen idx p ::
            GenerateImages.imgLoop gen (idx + 1) rest from rfl]
      rw [List.get?_cons_zero, List.get?_cons_zero]
      rfl
    | succ k' =>
      rw [show GenerateImages.imgLoop gen idx (p :: rest) =
          GenerateImages.imgProcess gen idx p ::
            GenerateImages.imgLoop gen (idx + 1) rest from rfl]
      rw [List.get?_cons_succ, List.get?_cons_succ,
        show idx + (k' + 1) = idx + 1 + k' from by omega]
      exact ih (idx + 1) k'

theorem range'_get? : ∀ (n a k : Nat), k < n →
    (List.range' a n).get? k = some (a + k) := by
  intro n
  induction n with
  | zero => intro a k h; omega
  | succ n' ih =>
    intro a k h
    rw [List.range'_succ]
    cases k with
    | zero => simp
    | succ k' =>
      rw [List.get?_cons_succ, ih (a + 1) k' (by omega),
        show a + 1 + k' = a + (k' + 1) from by omega]

theorem vidLoop_length {A I : Type}
    (cv : A → I → String → Nat → Except String CreateVideos.VidOk)
    (audios : List A) (imgs : List I) (texts : List String) :
    ∀ (rng : List Nat),
      (CreateVideos.vidLoop cv audios imgs texts rng).length = rng.length := by
  intro rng
  induction rng with
  | nil => rfl
  | cons i rest ih => simp [CreateVideos.vidLoop, ih]

theorem vidLoop_get? {A I : Type}
    (cv : A → I → String → Nat → Except String CreateVideos.VidOk)
    (audios : List A) (imgs : List I) (texts : List String) :
    ∀ (rng : List Nat) (k : Nat),
      (CreateVideos.vidLoop cv audios imgs texts rng).get? k =
        (rng.get? k).map (CreateVideos.vidProcess cv audios imgs texts) := by
  intro rng
  induction rng with
  | nil => intro k; rfl
  | cons i rest ih =>
    intro k
    cases k with
    | zero => rfl
    | succ k' =>
      rw [show CreateVideos.vidLoop cv audios imgs texts (i :: rest) =
          CreateVideos.vidProcess cv audios imgs texts i ::
            CreateVideos.vidLoop cv audios imgs texts rest from rfl]
      rw [List.get?_cons_succ, List.get?_cons_succ]
      exact ih k'

/-- C5: in the TTS, image and video batch endpoints, an exception raised
while producing one item's result is caught and turned into an error record
(`error := some message` with null media and zeroed metadata) in that item's
slot; the remaining slots are computed exactly as they would be anyway (slot
`k` is a function of item `k` alone), and the response is a 200 success with
a full-length batch for every oracle — in particular even when the oracle
fails on every item. -/
theorem c5_error_isolation
    (genA : String → Except String GenerateTts.TtsOk)
    (genI : String → Nat → Except String GenerateImages.ImgOk)
    {A I : Type} (cv : A → I → String → Nat → Except String CreateVideos.VidOk)
    (parts : List String) (audios : List A) (imgs : List I)
    (texts : List String) (bi bs : Nat) (hp : parts ≠ [])
    (hl1 : audios.length = imgs.length) (hl2 : audios.length = texts.length) :
    (∀ e, GenerateTts.ttsErrItem e =
      { audio := none, duration := 0, size := 0, format := none,
        error := some e }) ∧
    (∀ e, GenerateImages.imgErrItem e =
      { image := none, width := 0, height := 0, size := 0,
        error := some e }) ∧
    (∀ e, CreateVideos.vidErrItem e =
      { video := none, duration := 0, width := 0, height := 0, size := 0,
        error := some e }) ∧
    (∃ s, GenerateTts.do_POST genA parts bi bs = Resp.success s ∧
      s.audio_batch.length =
        (pySlice parts (bi * bs) (min (bi * bs + bs) parts.length)).length ∧
      ∀ (k : Nat) (p : String),
        (pySlice parts (bi * bs) (min (bi * bs + bs) parts.length)).get? k =
          some p →
        s.audio_batch.get? k = some (GenerateTts.ttsProcess genA p)) ∧
    (∃ s, GenerateImages.do_POST genI parts bi bs = Resp.success s ∧
      s.image_batch.length =
        (pySlice parts (bi * bs) (min (bi * bs + bs) parts.length)).length ∧
      ∀ (k : Nat) (p : String),
        (pySlice parts (bi * bs) (min (bi * bs + bs) parts.length)).get? k =
          some p →
        s.image_batch.get? k =
          some (GenerateImages.imgProcess genI (bi * bs + k) p)) ∧
    (∃ s, CreateVideos.do_POST cv audios imgs texts bi bs = Resp.success s ∧
      s.video_batch.length =
        min (bi * bs + bs) audios.length - bi * bs ∧
      ∀ (k : Nat), k < min (bi * bs + bs) audios.length - bi * bs →
        s.video_batch.get? k =
          some (CreateVideos.vidProcess cv audios imgs texts (bi * bs + k))) := by
  have hne : parts.isEmpty = false := by
    cases parts with
    | nil => exact absurd rfl hp
    | cons a t => rfl
  refine ⟨fun e => rfl, fun e => rfl, fun e => rfl, ?_, ?_, ?_⟩
  · have htts : GenerateTts.do_POST genA parts bi bs = Resp.success
        { audio_batch := GenerateTts.ttsLoop genA
            (pySlice parts (bi * bs) (min (bi * bs + bs) parts.length)),
          batch_index := bi, batch_size := bs, batch_start := bi * bs,
          batch_end := min (bi * bs + bs) parts.length,
          total_parts := parts.length,
          has_more := decide (min (bi * bs + bs) parts.length < parts.length),
          next_batch_index :=
            if min (bi * bs + bs) parts.length < parts.length
              then some (bi + 1) else none } := by
      simp [GenerateTts.do_POST, hne]
    refine ⟨_, htts, ttsLoop_length genA _, ?_⟩
    intro k p hk
    show (GenerateTts.ttsLoop genA
      (pySlice parts (bi * bs) (min (bi * bs + bs) parts.length))).get? k =
      some (GenerateTts.ttsProcess genA p)
    rw [ttsLoop_get? genA _ k, hk]
    rfl
  · have himg : GenerateImages.do_POST genI parts bi bs = Resp.success
        { image_batch := GenerateImages.imgLoop genI (bi * bs)
            (pySlice parts (bi * bs) (min (bi * bs + bs) parts.length)),
          batch_index := bi, batch_size := bs, batch_start := bi * bs,
          batch_end := min (bi * bs + bs) parts.length,
          total_parts := parts.length,
          has_more := decide (min (bi * bs + bs) parts.length < parts.length),
          next_batch_index :=
            if min (bi * bs + bs) parts.length < parts.length
              then some (bi + 1) else none } := by
      simp [GenerateImages.do_POST, hne]
    refine ⟨_, himg, imgLoop_length genI _ _, ?_⟩
    intro k p hk
    show (GenerateImages.imgLoop genI (bi * bs)
      (pySlice parts (bi * bs) (min (bi * bs + bs) parts.length))).get? k =
      some (GenerateImages.imgProcess genI (bi * bs + k) p)
    rw [imgLoop_get? genI _ (bi * bs) k, hk]
    rfl
  · have hvids : CreateVideos.do_POST cv audios imgs texts bi bs = Resp.success
        { video_batch := CreateVideos.vidLoop cv audios imgs texts
            (pyRange (bi * bs) (min (bi * bs + bs) audios.length)),
          batch_index := bi, batch_size := bs, batch_start := bi * bs,
          batch_end := min (bi * bs + bs) audios.length,
          total_parts := audios.length,
          has_more := decide (min (bi * bs + bs) audios.length < audios.length),
          next_batch_index :=
            if min (bi * bs + bs) audios.length < audios.length
              then some (bi + 1) else none } := by
      simp [CreateVideos.do_POST, hl1, hl2]
      omega
    refine ⟨_, hvids, ?_, ?_⟩
    · show (CreateVideos.vidLoop cv audios imgs texts
        (pyRange (bi * bs) (min (bi * bs + bs) audios.length))).length =
        min (bi * bs + bs) audios.length - bi * bs
      rw [vidLoop_length, pyRange, List.length_range']
    · intro k hk
      show (CreateVideos.vidLoop cv audios imgs texts
        (pyRange (bi * bs) (min (bi * bs + bs) audios.length))).get? k =
        some (CreateVideos.vidProcess cv audios imgs texts (bi * bs + k))
      rw [vidLoop_get?, pyRange, range'_get? _ _ _ hk]
      rfl

/-- C5 witness: the TTS endpoint applied to a concrete two-item batch (one
real item, one blank) with an oracle that fails on everything: the response
is still a 200 success with per-slot results. -/
theorem c5_error_isolation_witness :
    ∃ s, GenerateTts.do_POST (fun _ => Except.error "boom") ["x", " "] 0 5 =
        Resp.success s ∧
      s.audio_batch.length =
        (pySlice ["x", " "] (0 * 5)
          (min (0 * 5 + 5) (["x", " "] : List String).length)).length ∧
      ∀ (k : Nat) (p : String),
        (pySlice ["x", " "] (0 * 5)
          (min (0 * 5 + 5) (["x", " "] : List String).length)).get? k = some p →
        s.audio_batch.get? k =
          some (GenerateTts.ttsProcess (fun _ => Except.error "boom") p) :=
  (c5_error_isolation (fun _ => Except.error "boom")
    (fun _ _ => Except.error "boom")
    (fun (_ : Nat) (_ : Nat) (_ : String) (_ : Nat) => Except.error "boom")
    ["x", " "] [1] [2] ["t"] 0 5 (by decide) (by decide) (by decide)).2.2.2.1

theorem translateLoop_ok_blank (tr : String → Except String String) :
    ∀ (l : List String) (idx : Nat) (tb : List String),
      TranslateText.translateLoop tr idx l = Except.ok tb →
      ∀ (k : Nat) (p : String), l.get? k = some p → isBlank p = true →
        tb.get? k = some "" := by
  intro l
  induction l with
  | nil => intro idx tb _ k p hk; simp at hk
  | cons p0 rest ih =>
    intro idx tb hloop k p hk hb
    by_cases hb0 : isBlank p0
    · rw [show TranslateText.translateLoop tr idx (p0 :: rest) =
          (match TranslateText.translateLoop tr (idx + 1) rest with
           | Except.ok l' => Except.ok ("" :: l')
           | Except.error e => Except.error e) from by
        simp [TranslateText.translateLoop, hb0]] at hloop
      cases hrec : TranslateText.translateLoop tr (idx + 1) rest with
      | error e => rw [hrec] at hloop; cases hloop
      | ok l' =>
        rw [hrec] at hloop
        cases hloop
        cases k with
        | zero => rfl
        | succ k' =>
          rw [List.get?_cons_succ] at hk ⊢
          exact ih (idx + 1) l' hrec k' p hk hb
    · cases htr : tr p0 with
      | error e =>
        rw [show TranslateText.translateLoop tr idx (p0 :: rest) =
            Except.error (idx, e) from by
          simp [TranslateText.translateLoop, hb0, htr]] at hloop
        cases hloop
      | ok t =>
        rw [show TranslateText.translateLoop tr idx (p0 :: rest) =
            (match TranslateText.translateLoop tr (idx + 1) rest with
             | Except.ok l' => Except.ok (t :: l')
             | Except.error e => Except.error e) from by
          simp [TranslateText.translateLoop, hb0, htr]] at hloop
        cases hrec : TranslateText.translateLoop tr (idx + 1) rest with
        | error e => rw [hrec] at hloop; cases hloop
        | ok l' =>
          rw [hrec] at hloop
          cases hloop
          cases k with
          | zero =>
            rw [List.get?_cons_zero] at hk
            cases hk
            exact absurd hb hb0
          | succ k' =>
            rw [List.get?_cons_succ] at hk ⊢
            exact ih (idx + 1) l' hrec k' p hk hb

theorem ttsLoop_congr (g g' : String → Except String GenerateTts.TtsOk)
    (h : ∀ p, isBlank p = false → g p = g' p) :
    ∀ (l : List String), GenerateTts.ttsLoop g l = GenerateTts.ttsLoop g' l := by
  intro l
  induction l with
  | nil => rfl
  | cons p rest ih =>
    have hp : GenerateTts.ttsProcess g p = GenerateTts.ttsProcess g' p := by
      by_cases hb : isBlank p
      · simp [GenerateTts.ttsProcess, hb]
      · simp [GenerateTts.ttsProcess, hb,
          h p (by revert hb; cases isBlank p <;> simp)]
    simp [GenerateTts.ttsLoop, hp, ih]

theorem imgLoop_congr (g g' : String → Nat → Except String GenerateImages.ImgOk)
    (h : ∀ p n, isBlank p = false → g p n = g' p n) :
    ∀ (l : List String) (idx : Nat),
      GenerateImages.imgLoop g idx l = GenerateImages.imgLoop g' idx l := by
  intro l
  induction l with
  | nil => intro idx; rfl
  | cons p rest ih =>
    intro idx
    have hp : GenerateImages.imgProcess g idx p = GenerateImages.imgProcess g' idx p := by
      by_cases hb : isBlank p
      · simp [GenerateImages.imgProcess, hb]
      · simp [GenerateImages.imgProcess, hb,
          h p (idx + 1) (by revert hb; cases isBlank p <;> simp)]
    simp [GenerateImages.imgLoop, hp, ih (idx + 1)]

theorem translateLoop_congr (tr tr' : String → Except String String)
    (h : ∀ p, isBlank p = false → tr p = tr' p) :
    ∀ (l : List String) (idx : Nat),
      TranslateText.translateLoop tr idx l = TranslateText.translateLoop tr' idx l := by
  intro l
  induction l with
  | nil => intro idx; rfl
  | cons p rest ih =>
    intro idx
    by_cases hb : isBlank p
    · simp [TranslateText.translateLoop, hb, ih (idx + 1)]
    · have htp : tr p = tr' p := h p (by revert hb; cases isBlank p <;> simp)
      simp [TranslateText.translateLoop, hb, htp, ih (idx + 1)]

/-- C6 amended: in the TTS and image batch endpoints a blank item produces
an `{error: "Empty text"}` record (null media, zeroed metadata) in its slot;
in the translate endpoint a blank item instead contributes the plain empty
string `""` to its slot whenever the request succeeds.  In all three
endpoints the external operation is never invoked on a blank item: the
response is unchanged under any modification of the oracle's behaviour on
blank inputs. -/
theorem c6_empty_item_amended :
    (∀ (genA : String → Except String GenerateTts.TtsOk)
        (parts : List String) (bi bs k : Nat) (p : String), parts ≠ [] →
      (pySlice parts (bi * bs) (min (bi * bs + bs) parts.length)).get? k = some p →
      isBlank p = true →
      ∃ s, GenerateTts.do_POST genA parts bi bs = Resp.success s ∧
        s.audio_batch.get? k = some (GenerateTts.ttsErrItem "Empty text")) ∧
    (∀ (genI : String → Nat → Except String GenerateImages.ImgOk)
        (parts : List String) (bi bs k : Nat) (p : String), parts ≠ [] →
      (pySlice parts (bi * bs) (min (bi * bs + bs) parts.length)).get? k = some p →
      isBlank p = true →
      ∃ s, GenerateImages.do_POST genI parts bi bs = Resp.success s ∧
        s.image_batch.get? k = some (GenerateImages.imgErrItem "Empty text")) ∧
    (∀ (tr : String → Except String String)
        (parts : List String) (bi bs k : Nat) (p : String)
        (s : TranslateText.TranslateOut),
      (pySlice parts (bi * bs) (min (bi * bs + bs) parts.length)).get? k = some p →
      isBlank p = true →
      TranslateText.do_POST tr parts bi bs = Resp.success s →
      s.translated_batch.get? k = some "") ∧
    (∀ (genA genA' : String → Except String GenerateTts.TtsOk)
        (parts : List String) (bi bs : Nat),
      (∀ p, isBlank p = false → genA p = genA' p) →
      GenerateTts.do_POST genA parts bi bs = GenerateTts.do_POST genA' parts bi bs) ∧
    (∀ (genI genI' : String → Nat → Except String GenerateImages.ImgOk)
        (parts : List String) (bi bs : Nat),
      (∀ p n, isBlank p = false → genI p n = genI' p n) →
      GenerateImages.do_POST genI parts bi bs =
        GenerateImages.do_POST genI' parts bi bs) ∧
    (∀ (tr tr' : String → Except String String)
        (parts : List String) (bi bs : Nat),
      (∀ p, isBlank p = false → tr p = tr' p) →
      TranslateText.do_POST tr parts bi bs =
        TranslateText.do_POST tr' parts bi bs) := by
  refine ⟨?_, ?_, ?_, ?_, ?_, ?_⟩
  · intro genA parts bi bs k p hp hk hb
    have hne : parts.isEmpty = false := by
      cases parts with
      | nil => exact absurd rfl hp
      | cons a t => rfl
    have htts : GenerateTts.do_POST genA parts bi bs = Resp.success
        { audio_batch := GenerateTts.ttsLoop genA
            (pySlice parts (bi * bs) (min (bi * bs + bs) parts.length)),
          batch_index := bi, batch_size := bs, batch_start := bi * bs,
          batch_end := min (bi * bs + bs) parts.length,
          total_parts := parts.length,
          has_more := decide (min (bi * bs + bs) parts.length < parts.length),
          next_batch_index :=
            if min (bi * bs + bs) parts.length < parts.length
              then some (bi + 1) else none } := by
      simp [GenerateTts.do_POST, hne]
    refine ⟨_, htts, ?_⟩
    show (GenerateTts.ttsLoop genA
      (pySlice parts (bi * bs) (min (bi * bs + bs) parts.length))).get? k =
      some (GenerateTts.ttsErrItem "Empty text")
    rw [ttsLoop_get? genA _ k, hk]
    simp [GenerateTts.ttsProcess, hb]
  · intro genI parts bi bs k p hp hk hb
    have hne : parts.isEmpty = false := by
      cases parts with
      | nil => exact absurd rfl hp
      | cons a t => rfl
    have himg : GenerateImages.do_POST genI parts bi bs = Resp.success
        { image_batch := GenerateImages.imgLoop genI (bi * bs)
            (pySlice parts (bi * bs) (min (bi * bs + bs) parts.length)),
          batch_index := bi, batch_size := bs, batch_start := bi * bs,
          batch_end := min (bi * bs + bs) parts.length,
          total_parts := parts.length,
          has_more := decide (min (bi * bs + bs) parts.length < parts.length),
          next_batch_index :=
            if min (bi * bs + bs) parts.length < parts.length
              then some (bi + 1) else none } := by
      simp [GenerateImages.do_POST, hne]
    refine ⟨_, himg, ?_⟩
    show (GenerateImages.imgLoop genI (bi * bs)
      (pySlice parts (bi * bs) (min (bi * bs + bs) parts.length))).get? k =
      some (GenerateImages.imgErrItem "Empty text")
    rw [imgLoop_get? genI _ (bi * bs) k, hk]
    simp [GenerateImages.imgProcess, hb]
  · intro tr parts bi bs k p s hk hb hs
    by_cases hne : parts.isEmpty
    · simp [TranslateText.do_POST, hne] at hs
    · simp only [TranslateText.do_POST, hne, Bool.false_eq_true, if_false] at hs
      cases hloop : TranslateText.translateLoop tr (bi * bs)
          (pySlice parts (bi * bs) (min (bi * bs + bs) parts.length)) with
      | error ie => rw [hloop] at hs; cases hs
      | ok tb =>
        rw [hloop] at hs
        cases hs
        exact translateLoop_ok_blank tr _ (bi * bs) tb hloop k p hk hb
  · intro genA genA' parts bi bs h
    simp only [GenerateTts.do_POST, ttsLoop_congr genA genA' h]
  · intro genI genI' parts bi bs h
    simp only [GenerateImages.do_POST, imgLoop_congr genI genI' h]
  · intro tr tr' parts bi bs h
    simp only [TranslateText.do_POST, translateLoop_congr tr tr' h]

/-- C6 witness: concrete instances of the amended claim — a blank second
item in a TTS batch gets the `Empty text` error slot, and in a translate
batch gets `""`, with always-failing oracles demonstrating the external
operation is not consulted. -/
theorem c6_empty_item_witness :
    (∃ s, GenerateTts.do_POST (fun _ => Except.error "boom") ["x", " "] 0 5 =
        Resp.success s ∧
      s.audio_batch.get? 1 = some (GenerateTts.ttsErrItem "Empty text")) ∧
    (∃ s, GenerateImages.do_POST (fun _ _ => Except.error "boom") ["x", " "] 0 5 =
        Resp.success s ∧
      s.image_batch.get? 1 = some (GenerateImages.imgErrItem "Empty text")) := by
  constructor
  · exact c6_empty_item_amended.1 (fun _ => Except.error "boom") ["x", " "]
      0 5 1 " " (by decide) (by decide) (by decide)
  · exact c6_empty_item_amended.2.1 (fun _ _ => Except.error "boom") ["x", " "]
      0 5 1 " " (by decide) (by decide) (by decide)

theorem splitLoop_cons_eq (t mn mx : Nat) (s₀ : String) (rest buf : List String)
    (cc : Nat) :
    SplitStory.splitLoop t mn mx (s₀ :: rest) buf cc =
      (if pyStrip s₀ = "" then SplitStory.splitLoop t mn mx rest buf cc
       else if cc > 0 ∧ cc + wordCount (pyStrip s₀) > mx then
         if mn ≤ cc then
           buf :: SplitStory.splitLoop t mn mx rest [pyStrip s₀]
             (wordCount (pyStrip s₀))
         else SplitStory.splitLoop t mn mx rest (buf ++ [pyStrip s₀])
           (cc + wordCount (pyStrip s₀))
       else if t ≤ cc + wordCount (pyStrip s₀) then
         (buf ++ [pyStrip s₀]) :: SplitStory.splitLoop t mn mx rest [] 0
       else SplitStory.splitLoop t mn mx rest (buf ++ [pyStrip s₀])
         (cc + wordCount (pyStrip s₀))) := rfl

theorem splitSpecLoop_cons_eq (t mn mx : Nat) (s₀ : String) (rest buf : List String)
    (cc : Nat) :
    SplitStory.splitSpecLoop t mn mx (s₀ :: rest) buf cc =
      (if pyStrip s₀ = "" then SplitStory.splitSpecLoop t mn mx rest buf cc
       else if buf ≠ [] ∧ cc + wordCount (pyStrip s₀) > mx then
         if mn ≤ cc then
           buf :: SplitStory.splitSpecLoop t mn mx rest [pyStrip s₀]
             (wordCount (pyStrip s₀))
         else SplitStory.splitSpecLoop t mn mx rest (buf ++ [pyStrip s₀])
           (cc + wordCount (pyStrip s₀))
       else if t ≤ cc + wordCount (pyStrip s₀) then
         (buf ++ [pyStrip s₀]) :: SplitStory.splitSpecLoop t mn mx rest [] 0
       else SplitStory.splitSpecLoop t mn mx rest (buf ++ [pyStrip s₀])
         (cc + wordCount (pyStrip s₀))) := rfl

theorem splitLoop_eq_specLoop (t mn mx : Nat) :
    ∀ (ss buf : List String) (cc : Nat), (buf = [] ↔ cc = 0) →
      SplitStory.splitLoop t mn mx ss buf cc =
        SplitStory.splitSpecLoop t mn mx ss buf cc := by
  intro ss
  induction ss with
  | nil => intro buf cc _; rfl
  | cons s₀ rest ih =>
    intro buf cc hinv
    rw [splitLoop_cons_eq, splitSpecLoop_cons_eq]
    by_cases hs : pyStrip s₀ = ""
    · rw [if_pos hs, if_pos hs]
      exact ih buf cc hinv
    · rw [if_neg hs, if_neg hs]
      have hsw : 0 < wordCount (pyStrip s₀) := wordCount_pos s₀ hs
      have hinv1 : ([pyStrip s₀] : List String) = [] ↔
          wordCount (pyStrip s₀) = 0 := by
        constructor
        · intro h; cases h
        · intro h; omega
      have hinv2 : buf ++ [pyStrip s₀] = [] ↔
          cc + wordCount (pyStrip s₀) = 0 := by
        constructor
        · intro h
          exact absurd h (by simp)
        · intro h; omega
      have hPiff : (cc > 0 ∧ cc + wordCount (pyStrip s₀) > mx) ↔
          (buf ≠ [] ∧ cc + wordCount (pyStrip s₀) > mx) := by
        constructor
        · rintro ⟨h1, h2⟩
          refine ⟨?_, h2⟩
          intro hb
          have := hinv.mp hb
          omega
        · rintro ⟨h1, h2⟩
          refine ⟨?_, h2⟩
          rcases Nat.eq_zero_or_pos cc with hz | hpos
          · exact absurd (hinv.mpr hz) h1
          · exact hpos
      by_cases hcond : buf ≠ [] ∧ cc + wordCount (pyStrip s₀) > mx
      · rw [if_pos (hPiff.mpr hcond), if_pos hcond]
        by_cases hmn : mn ≤ cc
        · rw [if_pos hmn, if_pos hmn]
          rw [ih [pyStrip s₀] (wordCount (pyStrip s₀)) hinv1]
        · rw [if_neg hmn, if_neg hmn]
          exact ih _ _ hinv2
      · rw [if_neg (fun hc => hcond (hPiff.mp hc)), if_neg hcond]
        by_cases ht : t ≤ cc + wordCount (pyStrip s₀)
        · rw [if_pos ht, if_pos ht]
          rw [ih [] 0 ⟨fun _ => rfl, fun _ => rfl⟩]
        · rw [if_neg ht, if_neg ht]
          exact ih _ _ hinv2

/-- C2: the split policy of `split_into_parts` is, for every cleaned text
and target, exactly the policy the spec describes: with
`min = floor(target*0.8)` and `max = floor(target*1.2)`, a sentence that
would push a non-empty buffer past `max` closes the part when the buffer has
reached `min` and is otherwise absorbed as overshoot; in all other cases the
sentence is appended and the part closes as soon as the count reaches
`target`; a non-empty final buffer is emitted as the last part.
`split_into_parts_spec` is written from the spec's words (gated on "buffer
non-empty" where the code tests `current_word_count > 0`); the two agree on
every input. -/
theorem c2_split_policy (text : String) (target : Nat) :
    SplitStory.split_into_parts text target =
      SplitStory.split_into_parts_spec text target := by
  unfold SplitStory.split_into_parts SplitStory.split_into_parts_spec
    SplitStory.sentenceParts
  rw [splitLoop_eq_specLoop target (target * 4 / 5) (target * 6 / 5)
    (SplitStory.splitSentences text) [] 0 ⟨fun _ => rfl, fun _ => rfl⟩]

theorem splitLoop_join (t mn mx : Nat) :
    ∀ (ss buf : List String) (cc : Nat),
      (SplitStory.splitLoop t mn mx ss buf cc).flatten =
        buf ++ (ss.map pyStrip).filter (fun s => !(s == "")) := by
  intro ss
  induction ss with
  | nil =>
    intro buf cc
    by_cases h : buf = [] <;> simp [SplitStory.splitLoop, h]
  | cons s₀ rest ih =>
    intro buf cc
    rw [splitLoop_cons_eq]
    by_cases hs : pyStrip s₀ = ""
    · rw [if_pos hs, ih buf cc]
      simp [hs]
    · rw [if_neg hs]
      have hbeq : (pyStrip s₀ == "") = false := beq_eq_false_iff_ne.mpr hs
      split_ifs with h1 h2 h3 <;> simp [ih, hbeq, List.append_assoc]

/-- C3: re-joining, in order, the sentences of all parts emitted by
`split_into_parts` reproduces exactly the sequence of non-blank (stripped)
sentences of the cleaned text — no sentence is dropped and none duplicated.
`sentenceParts` is the same loop before the final `' '.join`, so the first
conjunct records that `split_into_parts` is precisely its space-joined
image. -/
theorem c3_segmenter_completeness (text : String) (target : Nat) :
    SplitStory.split_into_parts text target =
      (SplitStory.sentenceParts text target).map (String.intercalate " ") ∧
    (SplitStory.sentenceParts text target).flatten =
      SplitStory.nonblankSentences text := by
  constructor
  · rfl
  · unfold SplitStory.sentenceParts SplitStory.nonblankSentences
    have h := splitLoop_join target (target * 4 / 5) (target * 6 / 5)
      (SplitStory.splitSentences text) [] 0
    simpa using h

/-- C1 amended: the batch endpoints compute `start = batch_index*batch_size`
and `end = min(start+batch_size, len(items))` (conjuncts on the translate
and TTS responses); the invariant `0 ≤ start ≤ end ≤ len(items)` holds for
every request whose window start does not exceed `len(items)` — in
particular for all windows of the protocol-driven sequence (the original
claim's unrestricted version fails for out-of-range `batch_index`, see the
counterexample); successive windows are contiguous, every position
`j < len(items)` lies in exactly the window `batch_index = j / batch_size`,
and along the driven sequence `0..(n-1)/batch_size`, `has_more` is false
only on the final window. -/
theorem c1_batch_window_amended :
    (∀ (tr : String → Except String String) (parts : List String)
        (bi bs : Nat) (s : TranslateText.TranslateOut),
      TranslateText.do_POST tr parts bi bs = Resp.success s →
      s.batch_start = batchStart bi bs ∧
      s.batch_end = batchEnd bi bs parts.length ∧
      s.total_parts = parts.length ∧
      s.has_more = batchHasMore bi bs parts.length ∧
      s.next_batch_index =
        (if batchHasMore bi bs parts.length = true then some (bi + 1)
         else none)) ∧
    (∀ (genA : String → Except String GenerateTts.TtsOk)
        (parts : List String) (bi bs : Nat) (s : GenerateTts.TtsOut),
      GenerateTts.do_POST genA parts bi bs = Resp.success s →
      s.batch_start = batchStart bi bs ∧
      s.batch_end = batchEnd bi bs parts.length ∧
      s.total_parts = parts.length ∧
      s.has_more = batchHasMore bi bs parts.length ∧
      s.next_batch_index =
        (if batchHasMore bi bs parts.length = true then some (bi + 1)
         else none)) ∧
    (∀ (bi bs n : Nat), bi * bs ≤ n →
      batchStart bi bs ≤ batchEnd bi bs n ∧ batchEnd bi bs n ≤ n) ∧
    (∀ (bi bs n : Nat), batchHasMore bi bs n = true →
      batchEnd bi bs n = batchStart (bi + 1) bs) ∧
    (∀ (bs n j : Nat), 0 < bs → j < n →
      batchStart (j / bs) bs ≤ j ∧ j < batchEnd (j / bs) bs n) ∧
    (∀ (bs n j bi : Nat), 0 < bs → j < n →
      batchStart bi bs ≤ j → j < batchEnd bi bs n → bi = j / bs) ∧
    (∀ (bs n bi : Nat), 0 < bs → 0 < n → bi ≤ (n - 1) / bs →
      (batchHasMore bi bs n = false ↔ bi = (n - 1) / bs)) := by
  refine ⟨?_, ?_, ?_, ?_, ?_, ?_, ?_⟩
  · intro tr parts bi bs s h
    by_cases hne : parts.isEmpty
    · simp [TranslateText.do_POST, hne] at h
    · simp only [TranslateText.do_POST, hne, Bool.false_eq_true, if_false] at h
      cases hloop : TranslateText.translateLoop tr (bi * bs)
          (pySlice parts (bi * bs) (min (bi * bs + bs) parts.length)) with
      | error ie => rw [hloop] at h; cases h
      | ok tb =>
        rw [hloop] at h
        cases h
        refine ⟨rfl, rfl, rfl, rfl, ?_⟩
        simp [batchHasMore, batchEnd, decide_eq_true_eq]
  · intro genA parts bi bs s h
    by_cases hne : parts.isEmpty
    · simp [GenerateTts.do_POST, hne] at h
    · simp only [GenerateTts.do_POST, hne, Bool.false_eq_true, if_false] at h
      cases h
      refine ⟨rfl, rfl, rfl, rfl, ?_⟩
      simp [batchHasMore, batchEnd, decide_eq_true_eq]
  · intro bi bs n h
    unfold batchStart batchEnd
    omega
  · intro bi bs n h
    rw [batchHasMore, decide_eq_true_eq] at h
    unfold batchEnd at h
    unfold batchStart batchEnd
    have hmul : (bi + 1) * bs = bi * bs + bs := by ring
    omega
  · intro bs n j hbs hj
    have h1 : j / bs * bs ≤ j := Nat.div_mul_le_self j bs
    have h2 := Nat.div_add_mod j bs
    have h3 : j % bs < bs := Nat.mod_lt j hbs
    have h4 : bs * (j / bs) = j / bs * bs := Nat.mul_comm bs (j / bs)
    unfold batchStart batchEnd
    omega
  · intro bs n j bi hbs hj h1 h2
    unfold batchStart at h1
    unfold batchEnd at h2
    have h3 : j < (bi + 1) * bs := by
      have hmul : (bi + 1) * bs = bi * bs + bs := by ring
      omega
    exact (Nat.div_eq_of_lt_le h1 h3).symm
  · intro bs n bi hbs hn hle
    have h2 := Nat.div_add_mod (n - 1) bs
    have h3 : (n - 1) % bs < bs := Nat.mod_lt (n - 1) hbs
    have h4 : bs * ((n - 1) / bs) = (n - 1) / bs * bs := Nat.mul_comm _ _
    constructor
    · intro h
      rw [batchHasMore, decide_eq_false_iff_not] at h
      unfold batchEnd at h
      by_contra hne2
      have hlt : bi < (n - 1) / bs := by omega
      have h5 : (bi + 1) * bs ≤ (n - 1) / bs * bs :=
        Nat.mul_le_mul_right bs (by omega)
      have hmul : (bi + 1) * bs = bi * bs + bs := by ring
      omega
    · intro h
      rw [batchHasMore, decide_eq_false_iff_not]
      unfold batchEnd
      subst h
      omega

/-- C1 witness: the amended window facts at concrete inputs — a successful
translate response at `batch_index = 0`, `batch_size = 2` over three parts
carries the windower formula values; the invariant, contiguity, coverage,
uniqueness and final-`has_more` facts instantiated at small numbers. -/
theorem c1_batch_window_witness :
    ((0 : Nat) = batchStart 0 2 ∧
      (2 : Nat) = batchEnd 0 2 (["a", "b", "c"] : List String).length ∧
      (3 : Nat) = (["a", "b", "c"] : List String).length ∧
      true = batchHasMore 0 2 (["a", "b", "c"] : List String).length ∧
      some 1 =
        (if batchHasMore 0 2 (["a", "b", "c"] : List String).length = true
          then some (0 + 1) else none)) ∧
    (batchStart 1 2 ≤ batchEnd 1 2 3 ∧ batchEnd 1 2 3 ≤ 3) ∧
    (batchEnd 0 2 5 = batchStart 1 2) ∧
    (batchStart (3 / 2) 2 ≤ 3 ∧ 3 < batchEnd (3 / 2) 2 5) ∧
    (1 = 3 / 2) ∧
    (batchHasMore 2 2 5 = false ↔ 2 = (5 - 1) / 2) := by
  refine ⟨?_, ?_, ?_, ?_, ?_, ?_⟩
  · exact c1_batch_window_amended.1 (fun t => Except.ok t) ["a", "b", "c"] 0 2
      ⟨["a", "b"], 0, 2, 0, 2, 3, true, some 1, 2, 2⟩ (by decide)
  · exact c1_batch_window_amended.2.2.1 1 2 3 (by decide)
  · exact c1_batch_window_amended.2.2.2.1 0 2 5 (by decide)
  · exact c1_batch_window_amended.2.2.2.2.1 2 5 3 (by decide) (by decide)
  · exact c1_batch_window_amended.2.2.2.2.2.1 2 5 3 1 (by decide) (by decide)
      (by decide) (by decide)
  · exact c1_batch_window_amended.2.2.2.2.2.2 2 5 2 (by decide) (by decide)
      (by decide)
